import Mathlib

/-!
Shallow embedding of the foundation-beam report parser and geometry engine
(`app.py`).  Input lines are modelled as lists of characters, Python floats
as rationals.  The whitespace-separated regular expressions of the source
admit no backtracking ambiguity (every capture group sits between mandatory
whitespace or concrete literals), so each pattern is embedded as a
deterministic maximal-munch matcher.  A raised Python exception is an
`Except.error`; a Python `None` result is `Option.none`.
-/

namespace Balk

abbrev Chars := List Char

/-- The regex class `\s` on characters that can occur inside one line
(lines were split on the newline). -/
def isWs (c : Char) : Bool :=
  c.toNat = 32 || c.toNat = 9 || c.toNat = 13 || c.toNat = 11 || c.toNat = 12

/-- The regex class `\S`. -/
def isNonWs (c : Char) : Bool := !(isWs c)

/-- The regex class `\d`. -/
def isDigitCh (c : Char) : Bool := 48 ≤ c.toNat && c.toNat ≤ 57

/-- The regex class `[\d.]`. -/
def isDotDigit (c : Char) : Bool := isDigitCh c || c = '.'

/-- The regex class `[-\d.]`. -/
def isSignDotDigit (c : Char) : Bool := isDotDigit c || c = '-'

/-- `str.lower` on one character (the ASCII range exercised by the format). -/
def lowerCh (c : Char) : Char :=
  if 65 ≤ c.toNat && c.toNat ≤ 90 then Char.ofNat (c.toNat + 32) else c

/-- `line.lower()`. -/
def lower (l : Chars) : Chars := l.map lowerCh

/-- Truthiness of `line.strip()`. -/
def lineNonEmpty (l : Chars) : Bool := l.any isNonWs

/-- Greedy `cls+`: succeeds iff the first character is in the class and
captures the maximal run. -/
def takeWhile1 (p : Char → Bool) : Chars → Option (Chars × Chars)
  | [] => none
  | c :: cs => if p c then some (c :: cs.takeWhile p, cs.dropWhile p) else none

/-- `\s+`. -/
def skipWs1 (cs : Chars) : Option Chars := (takeWhile1 isWs cs).map (fun x => x.2)

/-- `\s+` followed by a greedy `cls+` group. -/
def wsTok (p : Char → Bool) (cs : Chars) : Option (Chars × Chars) :=
  match skipWs1 cs with
  | none => none
  | some r => takeWhile1 p r

/-- `\s*`. -/
def skipWs0 (cs : Chars) : Chars := cs.dropWhile isWs

/-- A literal piece of a pattern (`re.match` anchors at the line start). -/
def lit : Chars → Chars → Option Chars
  | [], cs => some cs
  | _ :: _, [] => none
  | p :: ps, c :: cs => if c = p then lit ps cs else none

/-- Numeric value of a digit string. -/
def digitsVal (ds : Chars) : Nat := ds.foldl (fun a c => 10 * a + (c.toNat - 48)) 0

def natReprAux : Nat → Nat → Chars → Chars
  | 0, _, acc => acc
  | fuel + 1, n, acc =>
    if n < 10 then Char.ofNat (48 + n) :: acc
    else natReprAux fuel (n / 10) (Char.ofNat (48 + n % 10) :: acc)

/-- Decimal rendering of a beam ordinal, as interpolated by the f-string
into the cross-section pattern. -/
def natRepr (n : Nat) : Chars := natReprAux (n + 1) n []

/-- `float()` on an unsigned decimal token: digits with at most one dot and
at least one digit somewhere. -/
def parseUFloat (cs : Chars) : Option ℚ :=
  let ip := cs.takeWhile isDigitCh
  match cs.dropWhile isDigitCh with
  | [] => if ip = [] then none else some ((digitsVal ip : ℚ))
  | '.' :: fr =>
      if (ip ≠ [] ∨ fr ≠ []) ∧ fr.all isDigitCh = true then
        some ((digitsVal ip : ℚ) + (digitsVal fr : ℚ) / (10 : ℚ) ^ fr.length)
      else none
  | _ => none

/-- `float()` on a possibly signed decimal token. -/
def parseFloat (cs : Chars) : Option ℚ :=
  match cs with
  | '-' :: r => (parseUFloat r).map (fun q => -q)
  | '+' :: r => parseUFloat r
  | _ => parseUFloat cs

/-- `int()` on a token (optional surrounding whitespace and sign). -/
def parseInt (cs : Chars) : Option ℤ :=
  let t := ((cs.dropWhile isWs).reverse.dropWhile isWs).reverse
  match t with
  | '-' :: ds => if ds ≠ [] ∧ ds.all isDigitCh = true then some (-(digitsVal ds : ℤ)) else none
  | '+' :: ds => if ds ≠ [] ∧ ds.all isDigitCh = true then some ((digitsVal ds : ℤ)) else none
  | ds => if ds ≠ [] ∧ ds.all isDigitCh = true then some ((digitsVal ds : ℤ)) else none

def splitOnAux (sep : Char) : Chars → Chars → List Chars
  | [], cur => [cur.reverse]
  | c :: cs, cur =>
    if c = sep then cur.reverse :: splitOnAux sep cs [] else splitOnAux sep cs (c :: cur)

/-- `str.split(sep)`. -/
def splitOn (sep : Char) (l : Chars) : List Chars := splitOnAux sep l []

def isPref : Chars → Chars → Bool
  | [], _ => true
  | _ :: _, [] => false
  | p :: ps, c :: cs => if p = c then isPref ps cs else false

/-- Python's substring test `pat in line`. -/
def hasInfix (pat : Chars) : Chars → Bool
  | [] => isPref pat []
  | c :: cs => isPref pat (c :: cs) || hasInfix pat cs

/-- First-match association-list lookup; new entries are prepended, so this
reproduces dict overwrite semantics. -/
def lookupKey {κ α : Type} [DecidableEq κ] (k : κ) : List (κ × α) → Option α
  | [] => none
  | (k', v) :: r => if k' = k then some v else lookupKey k r

/-- In-place update of the entry of key `k` (identity when absent). -/
def updList {κ α : Type} [DecidableEq κ] (k : κ) (f : α → α) : List (κ × α) → List (κ × α)
  | [] => []
  | (k', v) :: r => if k' = k then (k', f v) :: r else (k', v) :: updList k f r

/-- Python list indexing `xs[i]`: a negative index counts from the end;
`none` is an `IndexError`. -/
def pyGet? {α : Type} (xs : List α) (i : ℤ) : Option α :=
  let j := if i < 0 then (xs.length : ℤ) + i else i
  if 0 ≤ j then xs.get? j.toNat else none

/-- Python `int()` applied to a float: truncation toward zero. -/
def pyTrunc (q : ℚ) : ℤ := if q < 0 then -(⌊-q⌋) else ⌊q⌋

/-- `np.linspace a b n`: `n` evenly spaced samples from `a` to `b` inclusive. -/
def linspace (a b : ℚ) (n : Nat) : List ℚ :=
  match n with
  | 0 => []
  | 1 => [a]
  | k + 2 => (List.range (k + 2)).map (fun i => a + (i : ℚ) * (b - a) / ((k + 1 : Nat) : ℚ))

abbrev Pt := ℚ × ℚ

/-- The grid-line registry `stramienlijnen` (name, endpoints). -/
abbrev GridReg := List (Chars × (Pt × Pt))

/-- One entry of `balken`: the pair of endpoint codes. -/
abbrev BeamT := Chars × Chars

inductive Load : Type
  | distributed (q1 q2 start length : ℚ)
  | point (force position : ℚ)
deriving DecidableEq

/-- One entry of `ground_stress_data` (the dict value of the sampler). -/
structure Sample where
  x : ℚ
  y : ℚ
  z : ℚ
  beam : Nat
  position : ℚ
  stress : ℚ
deriving DecidableEq

/-- The grid-line pattern
`\s*\d+\s+(\S+)\s+([\d.]+)\s+([\d.]+)\s+([\d.]+)\s+([\d.]+)`, with the four
captured coordinates put through `float()`.  (A matched group on which
`float()` would raise, e.g. `1.2.3`, is treated as a non-match; the source
would abort there, which no claim exercises.) -/
def stramienMatch (l : Chars) : Option (Chars × ℚ × ℚ × ℚ × ℚ) :=
  match takeWhile1 isDigitCh (skipWs0 l) with
  | none => none
  | some (_, r) =>
  match wsTok isNonWs r with
  | none => none
  | some (nm, r) =>
  match wsTok isDotDigit r with
  | none => none
  | some (a, r) =>
  match wsTok isDotDigit r with
  | none => none
  | some (b, r) =>
  match wsTok isDotDigit r with
  | none => none
  | some (c, r) =>
  match wsTok isDotDigit r with
  | none => none
  | some (d, _) =>
  match parseUFloat a, parseUFloat b, parseUFloat c, parseUFloat d with
  | some x1, some y1, some x2, some y2 => some (nm, x1, y1, x2, y2)
  | _, _, _, _ => none

/-- The STRAMIENLIJNEN pass: flag is set by a `STRAMIENLIJNEN` line, the
loop breaks at any line containing `BALKEN`, matching lines are stored
under their name (later entries shadow earlier ones via `lookupKey`). -/
def stramienLoop : List Chars → Bool → GridReg → GridReg
  | [], _, acc => acc
  | l :: ls, inS, acc =>
    if hasInfix ("STRAMIENLIJNEN".toList) l then stramienLoop ls true acc
    else if hasInfix ("BALKEN".toList) l then acc
    else if inS then
      match stramienMatch l with
      | some (nm, x1, y1, x2, y2) => stramienLoop ls inS ((nm, ((x1, y1), (x2, y2))) :: acc)
      | none => stramienLoop ls inS acc
    else stramienLoop ls inS acc

def parseStramien (liness : List Chars) : GridReg := stramienLoop liness false []

/-- The beam-table pattern `\s*\d+\s+\S+\s+(\S+)\s+(\S+)`. -/
def balkenMatch (l : Chars) : Option BeamT :=
  match takeWhile1 isDigitCh (skipWs0 l) with
  | none => none
  | some (_, r) =>
  match wsTok isNonWs r with
  | none => none
  | some (_, r) =>
  match wsTok isNonWs r with
  | none => none
  | some (g1, r) =>
  match wsTok isNonWs r with
  | none => none
  | some (g2, _) => some (g1, g2)

/-- The BALKEN pass: opened by a line containing `BALKEN` but not
`vervolg` (case-insensitively), broken by `BALKEN vervolg` or
`DOORSNEDESECTOREN`, appending matched endpoint pairs in line order. -/
def balkenLoop : List Chars → Bool → List BeamT → List BeamT
  | [], _, acc => acc
  | l :: ls, inB, acc =>
    if hasInfix ("BALKEN".toList) l && !(hasInfix ("vervolg".toList) (lower l)) then
      balkenLoop ls true acc
    else if hasInfix ("BALKEN vervolg".toList) l || hasInfix ("DOORSNEDESECTOREN".toList) l then
      acc
    else if inB && lineNonEmpty l then
      match balkenMatch l with
      | some bm => balkenLoop ls inB (acc ++ [bm])
      | none => balkenLoop ls inB acc
    else balkenLoop ls inB acc

def parseBalken (liness : List Chars) : List BeamT := balkenLoop liness false []

/-- `get_beam_coord`: split the `"<gridline>;<station>"` code, parse the
station index, look the grid line up and interpolate at thirds.
`Except.error` is a raised `ValueError` (failed unpack, failed `int()`,
or unknown grid line). -/
def get_beam_coord (grid : GridReg) (code : Chars) : Except Unit Pt :=
  match splitOn ';' code with
  | [nm, ps] =>
    match parseInt ps with
    | none => Except.error ()
    | some i =>
      match lookupKey nm grid with
      | none => Except.error ()
      | some ((x1, y1), (x2, y2)) =>
        Except.ok (x1 + ((i : ℚ) - 1) * (x2 - x1) / 3, y1 + ((i : ℚ) - 1) * (y2 - y1) / 3)
  | _ => Except.error ()

/-- The cross-section pattern
`Balk\s+<bn>:\d+\s+([\d.]+)\s+([\d.]+)\s+([\d.]+)`, the ordinal being
interpolated literally by the f-string; the third captured field is the
beam length. -/
def beamLenMatch (bn : Nat) (l : Chars) : Option ℚ :=
  match lit ("Balk".toList) l with
  | none => none
  | some r =>
  match skipWs1 r with
  | none => none
  | some r =>
  match lit (natRepr bn ++ [':']) r with
  | none => none
  | some r =>
  match takeWhile1 isDigitCh r with
  | none => none
  | some (_, r) =>
  match wsTok isDotDigit r with
  | none => none
  | some (_, r) =>
  match wsTok isDotDigit r with
  | none => none
  | some (_, r) =>
  match wsTok isDotDigit r with
  | none => none
  | some (g3, _) => parseUFloat g3

/-- The scan of `get_beam_length`: once a `DOORSNEDESECTOREN` line is seen
the flag stays set; the first matching non-blank line returns its length
field, and exhaustion returns `0`. -/
def gblLoop (bn : Nat) : List Chars → Bool → ℚ
  | [], _ => 0
  | l :: ls, inS =>
    if hasInfix ("DOORSNEDESECTOREN".toList) l then gblLoop bn ls true
    else if inS && lineNonEmpty l then
      match beamLenMatch bn l with
      | some q => q
      | none => gblLoop bn ls inS
    else gblLoop bn ls inS

def get_beam_length (liness : List Chars) (bn : Nat) : ℚ := gblLoop bn liness false

/-- `get_beam_3d_coords`: `Except.ok none` is the Python `None` (ordinal
beyond the beam count, or non-positive beam length); `Except.error` is a
propagated exception (`IndexError` on the beam table, or a `ValueError`
raised by `get_beam_coord`). -/
def get_beam_3d_coords (liness : List Chars) (grid : GridReg) (balken : List BeamT)
    (bn : Nat) (pos : ℚ) : Except Unit (Option (ℚ × ℚ × ℚ)) :=
  if bn > balken.length then Except.ok none
  else
    match pyGet? balken ((bn : ℤ) - 1) with
    | none => Except.error ()
    | some (bs, be) =>
      match get_beam_coord grid bs, get_beam_coord grid be with
      | Except.ok sc, Except.ok ec =>
        if get_beam_length liness bn ≤ 0 then Except.ok none
        else Except.ok (some
            (sc.1 + pos / get_beam_length liness bn * (ec.1 - sc.1),
             sc.2 + pos / get_beam_length liness bn * (ec.2 - sc.2), 0))
      | _, _ => Except.error ()

abbrev BeamLoads := List (Nat × List Load)
abbrev LoadCases := List (Nat × BeamLoads)

/-- The load-case opener `VELDBELASTINGEN\s+B\.G:(\d+)`. -/
def bgMatch (l : Chars) : Option Nat :=
  match lit ("VELDBELASTINGEN".toList) l with
  | none => none
  | some r =>
  match skipWs1 r with
  | none => none
  | some r =>
  match lit ("B.G:".toList) r with
  | none => none
  | some r =>
  match takeWhile1 isDigitCh r with
  | none => none
  | some (ds, _) => some (digitsVal ds)

/-- The current-beam pattern `Balk\s+(\d+):`. -/
def beamHdrMatch (l : Chars) : Option Nat :=
  match lit ("Balk".toList) l with
  | none => none
  | some r =>
  match skipWs1 r with
  | none => none
  | some r =>
  match takeWhile1 isDigitCh r with
  | none => none
  | some (ds, r) =>
  match lit [':'] r with
  | none => none
  | some _ => some (digitsVal ds)

/-- The distributed-load pattern
`Balk\s+\d+:\d+\s+\d+\s+1:q-last\s+([-\d.]+)\s+([-\d.]+)\s+([\d.]+)\s+([\d.]+)`. -/
def qMatch (l : Chars) : Option Load :=
  match lit ("Balk".toList) l with
  | none => none
  | some r =>
  match skipWs1 r with
  | none => none
  | some r =>
  match takeWhile1 isDigitCh r with
  | none => none
  | some (_, r) =>
  match lit [':'] r with
  | none => none
  | some r =>
  match takeWhile1 isDigitCh r with
  | none => none
  | some (_, r) =>
  match wsTok isDigitCh r with
  | none => none
  | some (_, r) =>
  match skipWs1 r with
  | none => none
  | some r =>
  match lit ("1:q-last".toList) r with
  | none => none
  | some r =>
  match wsTok isSignDotDigit r with
  | none => none
  | some (g1, r) =>
  match wsTok isSignDotDigit r with
  | none => none
  | some (g2, r) =>
  match wsTok isDotDigit r with
  | none => none
  | some (g3, r) =>
  match wsTok isDotDigit r with
  | none => none
  | some (g4, _) =>
  match parseFloat g1, parseFloat g2, parseUFloat g3, parseUFloat g4 with
  | some q1, some q2, some d, some len => some (Load.distributed q1 q2 d len)
  | _, _, _, _ => none

/-- The point-load pattern
`Balk\s+\d+:\d+\s+\d+\s+8:Puntlast\s+([-\d.]+)\s+([\d.]+)`. -/
def pMatch (l : Chars) : Option Load :=
  match lit ("Balk".toList) l with
  | none => none
  | some r =>
  match skipWs1 r with
  | none => none
  | some r =>
  match takeWhile1 isDigitCh r with
  | none => none
  | some (_, r) =>
  match lit [':'] r with
  | none => none
  | some r =>
  match takeWhile1 isDigitCh r with
  | none => none
  | some (_, r) =>
  match wsTok isDigitCh r with
  | none => none
  | some (_, r) =>
  match skipWs1 r with
  | none => none
  | some r =>
  match lit ("8:Puntlast".toList) r with
  | none => none
  | some r =>
  match wsTok isSignDotDigit r with
  | none => none
  | some (g1, r) =>
  match wsTok isDotDigit r with
  | none => none
  | some (g2, _) =>
  match parseFloat g1, parseUFloat g2 with
  | some force, some position => some (Load.point force position)
  | _, _ => none

/-- The mutable state of the `parse_load_cases` loop. -/
structure LCState where
  inSec : Bool
  curBg : Option Nat
  curBeam : Option Nat
  cases : LoadCases
deriving DecidableEq

/-- One iteration of the `parse_load_cases` loop.  A `VELDBELASTINGEN
B.G:<n>` line (re)opens the section; a `BELASTINGCOMBINATIES` or `REACTIES`
line inside the section closes it (a blank line is merely skipped by the
`line.strip()` guard); inside the section a `Balk <n>:` prefix sets the
current beam (creating its dict entry, for any ordinal), and a matching
q-last or Puntlast line appends its load to the current beam, guarded by
Python truthiness of `current_beam` (so ordinal `0` never receives loads). -/
def lcStep (st : LCState) (l : Chars) : LCState :=
  match bgMatch l with
  | some n =>
    { inSec := true, curBg := some n, curBeam := st.curBeam,
      cases := if (lookupKey n st.cases).isSome then st.cases else st.cases ++ [(n, [])] }
  | none =>
    if st.inSec && (hasInfix ("BELASTINGCOMBINATIES".toList) l
        || hasInfix ("REACTIES".toList) l) then
      { st with inSec := false }
    else if st.inSec && lineNonEmpty l then
      match st.curBg with
      | none => st
      | some bg =>
        let cb :=
          match beamHdrMatch l with
          | some bn => some bn
          | none => st.curBeam
        let cases1 :=
          match beamHdrMatch l with
          | some bn =>
            if (lookupKey bn ((lookupKey bg st.cases).getD [])).isSome then st.cases
            else updList bg (fun m => m ++ [(bn, [])]) st.cases
          | none => st.cases
        let cases2 :=
          match qMatch l, cb with
          | some ld, some n =>
            if n ≠ 0 then updList bg (updList n (fun ls => ls ++ [ld])) cases1 else cases1
          | _, _ => cases1
        let cases3 :=
          match pMatch l, cb with
          | some ld, some n =>
            if n ≠ 0 then updList bg (updList n (fun ls => ls ++ [ld])) cases2 else cases2
          | _, _ => cases2
        { inSec := st.inSec, curBg := st.curBg, curBeam := cb, cases := cases3 }
    else st

def parse_load_cases (liness : List Chars) : LoadCases :=
  (liness.foldl lcStep { inSec := false, curBg := none, curBeam := none, cases := [] }).cases

/-- The ground-stress data-line pattern
`\s*(\d+)\s+(\d+)\s+([\d.]+)\s+([-\d.]+)\s+([-\d.]+)\s+([-\d.]+)\s+([-\d.]+)\s+([\d.]+)`,
returning the beam ordinal (field 1), position (field 3) and ground stress
(field 8). -/
def gsMatch (l : Chars) : Option (Nat × ℚ × ℚ) :=
  match takeWhile1 isDigitCh (skipWs0 l) with
  | none => none
  | some (g1, r) =>
  match wsTok isDigitCh r with
  | none => none
  | some (_, r) =>
  match wsTok isDotDigit r with
  | none => none
  | some (g3, r) =>
  match wsTok isSignDotDigit r with
  | none => none
  | some (_, r) =>
  match wsTok isSignDotDigit r with
  | none => none
  | some (_, r) =>
  match wsTok isSignDotDigit r with
  | none => none
  | some (_, r) =>
  match wsTok isSignDotDigit r with
  | none => none
  | some (_, r) =>
  match wsTok isDotDigit r with
  | none => none
  | some (g8, _) =>
  match parseUFloat g3, parseUFloat g8 with
  | some pos, some gs => some (digitsVal g1, pos, gs)
  | _, _ => none

/-- What one line contributes inside the ground-stress section: the
`line.strip()` guard, the data-line match, the `beam_num <= len(balken)`
range check, the beam-table index (Python negative indexing; the
`IndexError` on an empty table is modelled as a skip), the
`try`-protected endpoint resolution, and the positive-length guard with
interpolation at `ratio = position / beam_length`. -/
def groundStressStep (liness : List Chars) (grid : GridReg) (balken : List BeamT)
    (l : Chars) : Option Sample :=
  if lineNonEmpty l then
    match gsMatch l with
    | none => none
    | some (b, pos, gs) =>
      if b ≤ balken.length then
        match pyGet? balken ((b : ℤ) - 1) with
        | none => none
        | some (bs, be) =>
          match get_beam_coord grid bs, get_beam_coord grid be with
          | Except.ok sc, Except.ok ec =>
            if 0 < get_beam_length liness b then
              some { x := sc.1 + pos / get_beam_length liness b * (ec.1 - sc.1),
                     y := sc.2 + pos / get_beam_length liness b * (ec.2 - sc.2),
                     z := gs, beam := b, position := pos, stress := gs }
            else none
          | _, _ => none
      else none
  else none

/-- The `parse_ground_stress` loop: opened by a line containing both
`TUSSENPUNTEN VERPLAATSINGEN` and `Fundamentele combinatie`, broken by a
`REACTIES` or `BELASTINGCOMBINATIES` line, collecting the per-line samples
in order. -/
def gsLoop (liness : List Chars) (grid : GridReg) (balken : List BeamT) :
    List Chars → Bool → List Sample → List Sample
  | [], _, acc => acc
  | l :: ls, inD, acc =>
    if hasInfix ("TUSSENPUNTEN VERPLAATSINGEN".toList) l
        && hasInfix ("Fundamentele combinatie".toList) l then
      gsLoop liness grid balken ls true acc
    else if inD && (hasInfix ("REACTIES".toList) l
        || hasInfix ("BELASTINGCOMBINATIES".toList) l) then
      acc
    else if inD then
      match groundStressStep liness grid balken l with
      | some smp => gsLoop liness grid balken ls inD (acc ++ [smp])
      | none => gsLoop liness grid balken ls inD acc
    else gsLoop liness grid balken ls inD acc

def parse_ground_stress (liness : List Chars) (grid : GridReg) (balken : List BeamT) :
    List Sample := gsLoop liness grid balken liness false []

/-- Arrow count for a distributed load: `max(3, int(length / 0.5))`. -/
def nArrows (len : ℚ) : Nat := (max 3 (pyTrunc (len / (1 / 2)))).toNat

/-- The sample stations of a distributed load:
`np.linspace(start, start + length, n_arrows)`. -/
def distStations (s len : ℚ) : List ℚ := linspace s (s + len) (nArrows len)

/-- The local intensity drawn at a station:
`abs(q1) + ratio * (abs(q2) - abs(q1))`, the ratio being the fractional
position within the span, or `0` for a non-positive span. -/
def q_local (q1 q2 s len pos : ℚ) : ℚ :=
  let rr := if 0 < len then (pos - s) / len else 0
  |q1| + rr * (|q2| - |q1|)

/-! Helper lemmas about the parsing primitives. -/

theorem takeWhile_all_append {p : Char → Bool} {d : Chars} (c : Char) (r : Chars)
    (hall : ∀ x ∈ d, p x = true) (hc : p c = false) :
    (d ++ c :: r).takeWhile p = d := by
  induction d with
  | nil => simp [List.takeWhile_cons, hc]
  | cons a d ih =>
    have h1 := hall a (List.mem_cons_self a d)
    have h2 := ih (fun x hx => hall x (List.mem_cons_of_mem a hx))
    simp [List.takeWhile_cons, h1, h2]

theorem dropWhile_all_append {p : Char → Bool} {d : Chars} (c : Char) (r : Chars)
    (hall : ∀ x ∈ d, p x = true) (hc : p c = false) :
    (d ++ c :: r).dropWhile p = c :: r := by
  induction d with
  | nil => simp [List.dropWhile_cons, hc]
  | cons a d ih =>
    have h1 := hall a (List.mem_cons_self a d)
    have h2 := ih (fun x hx => hall x (List.mem_cons_of_mem a hx))
    simp [List.dropWhile_cons, h1, h2]

theorem takeWhile1_all_append {p : Char → Bool} {d : Chars} (c : Char) (r : Chars)
    (hne : d ≠ []) (hall : ∀ x ∈ d, p x = true) (hc : p c = false) :
    takeWhile1 p (d ++ c :: r) = some (d, c :: r) := by
  cases d with
  | nil => exact absurd rfl hne
  | cons a d =>
    have hall' : ∀ x ∈ d, p x = true := fun x hx => hall x (List.mem_cons_of_mem a hx)
    simp only [List.cons_append, takeWhile1, hall a (List.mem_cons_self a d), if_true,
      takeWhile_all_append c r hall' hc, dropWhile_all_append c r hall' hc]

theorem digit_not_ws {c : Char} (h : isDigitCh c = true) : isWs c = false := by
  simp only [isDigitCh, Bool.and_eq_true, decide_eq_true_eq] at h
  simp only [isWs, Bool.or_eq_false_iff, decide_eq_false_iff_not]
  omega

theorem digit_nonWs {c : Char} (h : isDigitCh c = true) : isNonWs c = true := by
  simp [isNonWs, digit_not_ws h]

theorem skipWs0_cons_of_nonws {c : Char} {r : Chars} (h : isWs c = false) :
    skipWs0 (c :: r) = c :: r := by
  simp [skipWs0, List.dropWhile_cons, h]

theorem lowerCh_digit {c : Char} (h : isDigitCh c = true) : lowerCh c = c := by
  simp only [isDigitCh, Bool.and_eq_true, decide_eq_true_eq] at h
  simp only [lowerCh, Bool.and_eq_true, decide_eq_true_eq, ite_eq_right_iff]
  omega

theorem ne_of_digit {d : Chars} (hall : ∀ x ∈ d, isDigitCh x = true) {c : Char}
    (hc : isDigitCh c = false) : ∀ x ∈ d, x ≠ c := by
  intro x hx he
  rw [he] at hx
  exact absurd (hall c hx) (by simp [hc])

theorem hasInfix_append_skip {p : Char} {ps : Chars} {d : Chars} (r : Chars)
    (h : ∀ x ∈ d, x ≠ p) : hasInfix (p :: ps) (d ++ r) = hasInfix (p :: ps) r := by
  induction d with
  | nil => rfl
  | cons a d ih =>
    have ha : ¬(p = a) := fun he => (h a (List.mem_cons_self a d)) he.symm
    simp only [List.cons_append, hasInfix, isPref, if_neg ha, Bool.false_or]
    exact ih (fun x hx => h x (List.mem_cons_of_mem a hx))

theorem hasInfix_blank {p : Char} {ps : Chars} {l : Chars}
    (hl : lineNonEmpty l = false) (hp : isNonWs p = true) :
    hasInfix (p :: ps) l = false := by
  have h : ∀ x ∈ l, x ≠ p := by
    intro x hx he
    have : isNonWs x = false := by
      by_contra hb
      have : l.any isNonWs = true := List.any_eq_true.2 ⟨x, hx, by
        cases hni : isNonWs x with
        | false => exact absurd hni hb
        | true => rfl⟩
      rw [lineNonEmpty] at hl
      rw [hl] at this
      exact absurd this (by simp)
    rw [he, hp] at this
    exact absurd this (by simp)
  calc hasInfix (p :: ps) l = hasInfix (p :: ps) (l ++ []) := by rw [List.append_nil]
    _ = hasInfix (p :: ps) [] := hasInfix_append_skip [] h
    _ = false := rfl

theorem pyGet_neg_one {α : Type} (xs : List α) : pyGet? xs (-1) = xs.getLast? := by
  unfold pyGet?
  cases xs with
  | nil => norm_num
  | cons a l =>
    rw [if_pos (by norm_num : (-1:ℤ) < 0)]
    rw [if_pos (by simp only [List.length_cons]; omega :
      (0:ℤ) ≤ ((a :: l).length : ℤ) + (-1))]
    rw [show ((((a :: l).length : ℤ) + (-1)).toNat) = l.length by
      simp only [List.length_cons]; omega]
    rw [List.getLast?_eq_getElem?, ← List.get?_eq_getElem?]
    congr 1

theorem gblLoop_all_none {bn : Nat} : ∀ (ls : List Chars),
    (∀ l ∈ ls, beamLenMatch bn l = none) → ∀ inS, gblLoop bn ls inS = 0 := by
  intro ls
  induction ls with
  | nil => intro _ _; rfl
  | cons l ls ih =>
    intro h inS
    have hl := h l (List.mem_cons_self l ls)
    have hrest : ∀ x ∈ ls, beamLenMatch bn x = none :=
      fun x hx => h x (List.mem_cons_of_mem l hx)
    simp only [gblLoop, hl]
    split
    · exact ih hrest true
    · split
      · exact ih hrest inS
      · exact ih hrest inS

/-! Concrete data shared by the claim instances. -/

/-- A registry holding one grid line `L1` from `(0,0)` to `(3,0)`. -/
def gridC2 : GridReg := [("L1".toList, ((0, 0), (3, 0)))]

/-! Claim theorems. -/

/-- Claim C2: resolving `"<name>;<i>"` against a registered grid line with
endpoints `p1, p2` yields `p1 + (i - 1) * (p2 - p1) / 3` componentwise, for
every integer station index `i` (no bounds check, so indices outside `1..4`
extrapolate); in particular for `p1=(0,0), p2=(3,0)` the stations `1..4`
resolve to `(0,0), (1,0), (2,0), (3,0)`. -/
theorem c2_station_interpolation :
    (∀ (grid : GridReg) (code nm ps : Chars) (i : ℤ) (x1 y1 x2 y2 : ℚ),
      splitOn ';' code = [nm, ps] →
      parseInt ps = some i →
      lookupKey nm grid = some ((x1, y1), (x2, y2)) →
      get_beam_coord grid code =
        Except.ok (x1 + ((i : ℚ) - 1) * (x2 - x1) / 3, y1 + ((i : ℚ) - 1) * (y2 - y1) / 3)) ∧
    (get_beam_coord gridC2 ("L1;1".toList) = Except.ok (0, 0) ∧
     get_beam_coord gridC2 ("L1;2".toList) = Except.ok (1, 0) ∧
     get_beam_coord gridC2 ("L1;3".toList) = Except.ok (2, 0) ∧
     get_beam_coord gridC2 ("L1;4".toList) = Except.ok (3, 0)) := by
  constructor
  · intro grid code nm ps i x1 y1 x2 y2 hsplit hint hlook
    simp only [get_beam_coord, hsplit, hint, hlook]
  · refine ⟨?s1, ?s2, ?s3, ?s4⟩
    · rw [show get_beam_coord gridC2 ("L1;1".toList) =
        Except.ok ((0:ℚ) + (((1:ℤ):ℚ) - 1) * ((3:ℚ) - 0) / 3,
                   (0:ℚ) + (((1:ℤ):ℚ) - 1) * ((0:ℚ) - 0) / 3) from rfl]
      norm_num
    · rw [show get_beam_coord gridC2 ("L1;2".toList) =
        Except.ok ((0:ℚ) + (((2:ℤ):ℚ) - 1) * ((3:ℚ) - 0) / 3,
                   (0:ℚ) + (((2:ℤ):ℚ) - 1) * ((0:ℚ) - 0) / 3) from rfl]
      norm_num
    · rw [show get_beam_coord gridC2 ("L1;3".toList) =
        Except.ok ((0:ℚ) + (((3:ℤ):ℚ) - 1) * ((3:ℚ) - 0) / 3,
                   (0:ℚ) + (((3:ℤ):ℚ) - 1) * ((0:ℚ) - 0) / 3) from rfl]
      norm_num
    · rw [show get_beam_coord gridC2 ("L1;4".toList) =
        Except.ok ((0:ℚ) + (((4:ℤ):ℚ) - 1) * ((3:ℚ) - 0) / 3,
                   (0:ℚ) + (((4:ℤ):ℚ) - 1) * ((0:ℚ) - 0) / 3) from rfl]
      norm_num

/-- Witness for C2: the general station formula applied at the concrete
grid line and the out-of-range station index `7`, which extrapolates to
`(6, 0)` instead of erroring. -/
theorem c2_station_interpolation_witness :
    get_beam_coord gridC2 ("L1;7".toList) = Except.ok (6, 0) := by
  have h := c2_station_interpolation.1 gridC2 ("L1;7".toList) ("L1".toList) ("7".toList)
    7 0 0 3 0 rfl rfl rfl
  rw [h]
  norm_num

/-- The arrow count of a zero-length distributed load evaluates to 3. -/
theorem nArrows_zero : nArrows 0 = 3 := by
  have h0 : (0:ℚ) / (1 / 2) = 0 := by norm_num
  rw [nArrows, h0, pyTrunc, if_neg (lt_irrefl (0:ℚ)), Int.floor_zero]
  rw [show (max 3 (0:ℤ)) = 3 from by norm_num]
  rfl

/-- Counterexample to claim C5: a distributed load of length `0` yields
three coincident sample stations, not exactly one. -/
theorem c5_counterexample :
    distStations 0 0 = [0, 0, 0] ∧ (distStations 0 0).length ≠ 1 := by
  have h : distStations 0 0 = [0, 0, 0] := by
    rw [distStations, nArrows_zero]
    show linspace 0 (0 + 0) 3 = [0, 0, 0]
    rw [linspace]
    norm_num [List.range_succ]
  exact ⟨h, by rw [h]; simp⟩

/-- Claim C5 (amended): assembling a zero-length distributed load divides
by nothing (the ratio guard returns `0`, so the intensity is `|q1|`
everywhere) and yields exactly three sample stations, all coincident with
the start position. -/
theorem c5_degenerate_span (s q1 q2 pos : ℚ) :
    distStations s 0 = [s, s, s] ∧ q_local q1 q2 s 0 pos = |q1| := by
  constructor
  · rw [distStations, nArrows_zero]
    show linspace s (s + 0) 3 = [s, s, s]
    rw [linspace]
    norm_num [List.range_succ]
  · rw [q_local]
    norm_num

/-- Counterexample to claim C6: for a negative `q1` the assembled intensity
is not `q1 + r * (q2 - q1)`; at `q1 = -10, q2 = 20, r = 1/2` the code
produces `15` (from the absolute values) while the claimed formula gives
`5`. -/
theorem c6_counterexample :
    q_local (-10) 20 0 2 1 = 15 ∧
    (-10 : ℚ) + (1 - 0) / 2 * (20 - (-10)) = 5 ∧ ((15 : ℚ) = 5 → False) := by
  refine ⟨?h1, by norm_num, by norm_num⟩
  rw [q_local]
  rw [if_pos (by norm_num : (0:ℚ) < 2),
    abs_of_nonpos (by norm_num : (-10:ℚ) ≤ 0),
    abs_of_nonneg (by norm_num : (0:ℚ) ≤ 20)]
  norm_num

/-- Claim C6 (amended): the assembled local intensity at fractional
position `r = (pos - s) / len` is `|q1| + r * (|q2| - |q1|)`; when `q1` and
`q2` are nonnegative this coincides with the claimed
`q1 + r * (q2 - q1)`, and in particular `q1=10, q2=20` at the midpoint
yields `15`. -/
theorem c6_intensity_interpolation (q1 q2 s len pos : ℚ)
    (h1 : 0 ≤ q1) (h2 : 0 ≤ q2) (hlen : 0 < len) :
    q_local q1 q2 s len pos = q1 + (pos - s) / len * (q2 - q1) := by
  rw [q_local]
  simp only [if_pos hlen, abs_of_nonneg h1, abs_of_nonneg h2]

/-- Witness for C6 (amended): `q1=10, q2=20, start=0, length=2` sampled at
the midpoint `pos=1` yields local intensity `15`. -/
theorem c6_intensity_interpolation_witness : q_local 10 20 0 2 1 = 15 := by
  rw [c6_intensity_interpolation 10 20 0 2 1 (by norm_num) (by norm_num) (by norm_num)]
  norm_num

/-- An input providing beam 1 (and only beam 1) with cross-section length 2. -/
def linesW : List Chars := ["DOORSNEDESECTOREN".toList, "Balk 1:1 1 1 2".toList]

/-- A registry holding the single grid line `A` from `(0,0)` to `(3,0)`. -/
def gridW : GridReg := [("A".toList, ((0, 0), (3, 0)))]

/-- A beam table with one beam spanning `A;1` to `A;4`. -/
def balkenW : List BeamT := [("A;1".toList, "A;4".toList)]

/-- Counterexample to claim C8: the ground-stress data line
`1 1 1 0 0 0 0 -5` — well-formed except that its eighth (groundStress)
field is negative — does not match the data-line pattern, so no sample is
emitted; the identical line with `5` in place of `-5` is accepted and
emits a sample, showing the context is otherwise well-formed. -/
theorem c8_counterexample :
    gsMatch ("1 1 1 0 0 0 0 -5".toList) = none ∧
    groundStressStep linesW gridW balkenW ("1 1 1 0 0 0 0 -5".toList) = none ∧
    groundStressStep linesW gridW balkenW ("1 1 1 0 0 0 0 5".toList) =
      some { x := 3/2, y := 0, z := 5, beam := 1, position := 1, stress := 5 } := by
  refine ⟨rfl, rfl, ?h⟩
  have h : groundStressStep linesW gridW balkenW ("1 1 1 0 0 0 0 5".toList) =
      some { x := (0:ℚ) + ((1:ℚ) - 1) * (3 - 0) / 3
                  + (1:ℚ) / 2 * ((0 + ((4:ℚ) - 1) * (3 - 0) / 3)
                      - (0 + ((1:ℚ) - 1) * (3 - 0) / 3)),
             y := (0:ℚ) + ((1:ℚ) - 1) * (0 - 0) / 3
                  + (1:ℚ) / 2 * ((0 + ((4:ℚ) - 1) * (0 - 0) / 3)
                      - (0 + ((1:ℚ) - 1) * (0 - 0) / 3)),
             z := 5, beam := 1, position := 1, stress := 5 } := rfl
  rw [h]
  norm_num

/-- Claim C8 (amended): a ground-stress data line whose eighth field starts
with a minus sign fails the data-line pattern (whose final group accepts
only unsigned decimals), so the line is skipped as malformed and
contributes no sample, whatever follows the sign and whatever the parse
context; negative values are accepted only in fields 4-7. -/
theorem c8_negative_stress_skipped (liness : List Chars) (grid : GridReg)
    (balken : List BeamT) (t : Chars) :
    groundStressStep liness grid balken ("1 1 1 0 0 0 0 -".toList ++ t) = none := rfl

/-- Counterexample to claim C7: with an empty input (so no cross-section
line exists for beam 1) the length lookup does yield `0`, but resolving a
point-load anchor on beam 1 raises (propagates a `ValueError`) instead of
returning no anchor point, because the beam's endpoint code references a
grid line absent from the (empty) registry and the endpoint resolution
precedes the length check. -/
theorem c7_counterexample :
    get_beam_length ([] : List Chars) 1 = 0 ∧
    get_beam_3d_coords [] [] [("A;1".toList, "A;4".toList)] 1 (3/2) =
      Except.error () := ⟨rfl, rfl⟩

/-- Claim C7 (amended): for a beam ordinal with no matching cross-section
line the length lookup returns `0` (no valid positive length), and — when
the beam's endpoint codes do resolve against the grid registry — the
point-load anchor resolution returns no anchor point (`none`) rather than
raising; with an unresolvable endpoint it raises before the length check,
as the counterexample shows. -/
theorem c7_unknown_length (liness : List Chars) (grid : GridReg) (balken : List BeamT)
    (bn : Nat) (pos : ℚ) (bs be : Chars) (sc ec : Pt)
    (hnone : ∀ l ∈ liness, beamLenMatch bn l = none) :
    get_beam_length liness bn = 0 ∧
    (pyGet? balken ((bn : ℤ) - 1) = some (bs, be) →
     get_beam_coord grid bs = Except.ok sc →
     get_beam_coord grid be = Except.ok ec →
     get_beam_3d_coords liness grid balken bn pos = Except.ok none) := by
  have hlen : get_beam_length liness bn = 0 := gblLoop_all_none liness hnone false
  refine ⟨hlen, fun hget hbs hbe => ?_⟩
  by_cases hgt : bn > balken.length
  · rw [get_beam_3d_coords, if_pos hgt]
  · rw [get_beam_3d_coords, if_neg hgt]
    simp only [hget, hbs, hbe, hlen]
    rw [if_pos (le_refl (0:ℚ))]

/-- Witness for C7 (amended): no input lines at all, one beam `A;1 → A;4`
over the registered grid line `A`: the length lookup yields `0` and the
anchor resolution yields no anchor point without raising. -/
theorem c7_unknown_length_witness :
    get_beam_length ([] : List Chars) 1 = 0 ∧
    get_beam_3d_coords [] gridW [("A;1".toList, "A;4".toList)] 1 (3/2) =
      Except.ok none := by
  have h := c7_unknown_length [] gridW [("A;1".toList, "A;4".toList)] 1 (3/2)
    ("A;1".toList) ("A;4".toList)
    ((0:ℚ) + (((1:ℤ):ℚ) - 1) * ((3:ℚ) - 0) / 3,
     (0:ℚ) + (((1:ℤ):ℚ) - 1) * ((0:ℚ) - 0) / 3)
    ((0:ℚ) + (((4:ℤ):ℚ) - 1) * ((3:ℚ) - 0) / 3,
     (0:ℚ) + (((4:ℤ):ℚ) - 1) * ((0:ℚ) - 0) / 3)
    (fun l hl => absurd hl (List.not_mem_nil l))
  exact ⟨h.1, h.2 rfl rfl rfl⟩

theorem bgMatch_blank {l : Chars} (h : lineNonEmpty l = false) : bgMatch l = none := by
  cases l with
  | nil => rfl
  | cons c cs =>
    rw [lineNonEmpty, List.any_cons, Bool.or_eq_false_iff] at h
    have hne : ¬(c = 'V') := by
      intro he
      rw [he] at h
      exact absurd h.1 (by decide)
    have hlit : lit ("VELDBELASTINGEN".toList) (c :: cs) = none := by
      rw [show ("VELDBELASTINGEN".toList) = 'V' :: "ELDBELASTINGEN".toList from rfl]
      simp only [lit, if_neg hne]
    simp only [bgMatch, hlit]

/-- The load-case block of the C3 instance: case 1, a distributed load, a
blank line, then another distributed load with no new section opener. -/
def linesC3 : List Chars :=
  ["VELDBELASTINGEN B.G:1".toList,
   "Balk 1:1 1 1:q-last 5 5 0 2".toList,
   "".toList,
   "Balk 1:1 1 1:q-last 7 7 0 2".toList]

/-- Counterexample to claim C3: in `linesC3` the load line following the
blank line still contributes its load to case 1 — the blank line does not
close the load-case section. -/
theorem c3_counterexample :
    lookupKey 1 (parse_load_cases linesC3) =
      some [(1, [Load.distributed 5 5 0 2, Load.distributed 7 7 0 2])] ∧
    Load.distributed 7 7 0 2 ∈
      [Load.distributed 5 5 0 2, Load.distributed 7 7 0 2] := ⟨rfl, by simp⟩

/-- Claim C3 (amended): a load-case section is closed only by a
`BELASTINGCOMBINATIES` or `REACTIES` line; a blank line leaves the parser
state — in particular the open section — completely unchanged, so load
lines after a blank line and before any later closer or opener still
contribute to the current load case. -/
theorem c3_blank_line_does_not_close (st : LCState) (l : Chars) :
    (lineNonEmpty l = false → lcStep st l = st) ∧
    (st.inSec = true → bgMatch l = none →
      (hasInfix ("BELASTINGCOMBINATIES".toList) l
        || hasInfix ("REACTIES".toList) l) = true →
      lcStep st l = { st with inSec := false }) := by
  constructor
  · intro hblank
    have hbg : bgMatch l = none := bgMatch_blank hblank
    have hB : hasInfix ("BELASTINGCOMBINATIES".toList) l = false := by
      rw [show ("BELASTINGCOMBINATIES".toList) = 'B' :: "ELASTINGCOMBINATIES".toList from rfl]
      exact hasInfix_blank hblank (by decide)
    have hR : hasInfix ("REACTIES".toList) l = false := by
      rw [show ("REACTIES".toList) = 'R' :: "EACTIES".toList from rfl]
      exact hasInfix_blank hblank (by decide)
    simp only [lcStep, hbg, hB, hR, hblank, Bool.or_self, Bool.and_false, if_false,
      Bool.false_eq_true]
  · intro hin hbg hterm
    simp only [lcStep, hbg, hin, hterm, Bool.true_and, if_true]

/-- Witness for C3 (amended): a blank line leaves an open section open and
unchanged, while a `REACTIES` line closes it. -/
theorem c3_blank_line_does_not_close_witness :
    lcStep { inSec := true, curBg := some 1, curBeam := none, cases := [(1, [])] } [' '] =
      { inSec := true, curBg := some 1, curBeam := none, cases := [(1, [])] } ∧
    lcStep { inSec := true, curBg := some 1, curBeam := none, cases := [(1, [])] }
        ("REACTIES".toList) =
      { inSec := false, curBg := some 1, curBeam := none, cases := [(1, [])] } := by
  constructor
  · exact (c3_blank_line_does_not_close
      { inSec := true, curBg := some 1, curBeam := none, cases := [(1, [])] } [' ']).1
      (by decide)
  · exact (c3_blank_line_does_not_close
      { inSec := true, curBg := some 1, curBeam := none, cases := [(1, [])] }
      ("REACTIES".toList)).2 rfl rfl (by decide)

/-- Claim C1: for a ground-stress data line with an in-range beam ordinal
whose endpoints resolve, the sampler uses the beam's true resolved length:
if that length is non-positive the sample is dropped (and the section loop
simply continues with the remaining lines); if it is positive the emitted
sample interpolates the 2-D coordinate between the endpoints at
`ratio = position / length`. -/
theorem c1_true_length_sampling (liness : List Chars) (grid : GridReg)
    (balken : List BeamT) (l : Chars) (b : Nat) (pos gs : ℚ) (bs be : Chars) (sc ec : Pt)
    (hm : gsMatch l = some (b, pos, gs))
    (hne : lineNonEmpty l = true)
    (hb : b ≤ balken.length)
    (hget : pyGet? balken ((b : ℤ) - 1) = some (bs, be))
    (hbs : get_beam_coord grid bs = Except.ok sc)
    (hbe : get_beam_coord grid be = Except.ok ec)
    (hh1 : hasInfix ("TUSSENPUNTEN VERPLAATSINGEN".toList) l = false)
    (hh2 : hasInfix ("REACTIES".toList) l = false)
    (hh3 : hasInfix ("BELASTINGCOMBINATIES".toList) l = false) :
    (get_beam_length liness b ≤ 0 →
      groundStressStep liness grid balken l = none ∧
      ∀ ls acc, gsLoop liness grid balken (l :: ls) true acc =
        gsLoop liness grid balken ls true acc) ∧
    (0 < get_beam_length liness b →
      groundStressStep liness grid balken l =
        some { x := sc.1 + pos / get_beam_length liness b * (ec.1 - sc.1),
               y := sc.2 + pos / get_beam_length liness b * (ec.2 - sc.2),
               z := gs, beam := b, position := pos, stress := gs }) := by
  constructor
  · intro hle
    have hstep : groundStressStep liness grid balken l = none := by
      simp only [groundStressStep, hne, if_true, hm, hget, hbs, hbe]
      rw [if_pos hb, if_neg (not_lt.2 hle)]
    refine ⟨hstep, fun ls acc => ?_⟩
    simp only [gsLoop, hh1, hh2, hh3, hstep, Bool.false_and, Bool.or_self, Bool.and_false,
      Bool.false_eq_true, if_false, if_true]
  · intro hgt
    simp only [groundStressStep, hne, if_true, hm, hget, hbs, hbe]
    rw [if_pos hb, if_pos hgt]

/-- Witness for C1: beam 1 of length 2 spanning `(0,0) → (3,0)`; the data
line at position 1 with stress 4 is emitted at the interpolated midpoint
`(3/2, 0)`. -/
theorem c1_true_length_sampling_witness :
    groundStressStep linesW gridW balkenW ("1 2 1 0 0 0 0 4".toList) =
      some { x := 3/2, y := 0, z := 4, beam := 1, position := 1, stress := 4 } := by
  have hL : get_beam_length linesW 1 = 2 := by
    rw [show get_beam_length linesW 1 = ((2:ℕ):ℚ) from rfl]
    norm_num
  have h := (c1_true_length_sampling linesW gridW balkenW ("1 2 1 0 0 0 0 4".toList)
    1 1 4 ("A;1".toList) ("A;4".toList)
    ((0:ℚ) + (((1:ℤ):ℚ) - 1) * ((3:ℚ) - 0) / 3,
     (0:ℚ) + (((1:ℤ):ℚ) - 1) * ((0:ℚ) - 0) / 3)
    ((0:ℚ) + (((4:ℤ):ℚ) - 1) * ((3:ℚ) - 0) / 3,
     (0:ℚ) + (((4:ℤ):ℚ) - 1) * ((0:ℚ) - 0) / 3)
    rfl rfl (by norm_num [balkenW]) rfl rfl rfl (by decide) (by decide) (by decide)).2
    (by rw [hL]; norm_num)
  rw [hL] at h
  rw [h]
  norm_num

/-- The input lines of the C10 instance: a cross-section entry under the
literal ordinal `0` supplying length 10. -/
def linesW10 : List Chars := ["DOORSNEDESECTOREN".toList, "Balk 0:1 1 1 10".toList]

/-- Grid registry of the C10 instance. -/
def gridW10 : GridReg :=
  [("A".toList, ((0, 0), (3, 0))), ("B".toList, ((3, 0), (3, 3)))]

/-- Beam table of the C10 instance; the last beam runs `B;1 → B;4`. -/
def balkenW10 : List BeamT :=
  [("A;1".toList, "A;4".toList), ("B;1".toList, "B;4".toList)]

/-- Claim C10: a referenced beam ordinal of `0` passes the range checks of
both the ground-stress sampler (`0 <= len(balken)`) and the 3-D coordinate
lookup (`not (0 > len(balken))`), and `balken[0 - 1]` resolves through
Python negative indexing to the LAST beam of the table, whose endpoint
geometry is then used; the sample is emitted whenever the `Balk 0:`
cross-section lookup supplies a positive length. -/
theorem c10_zero_ordinal_last_beam (liness : List Chars) (grid : GridReg)
    (balken : List BeamT) (l : Chars) (pos pos2 gs : ℚ) (bs be : Chars) (sc ec : Pt)
    (hm : gsMatch l = some (0, pos, gs))
    (hne : lineNonEmpty l = true)
    (hlast : balken.getLast? = some (bs, be))
    (hbs : get_beam_coord grid bs = Except.ok sc)
    (hbe : get_beam_coord grid be = Except.ok ec)
    (hpos : 0 < get_beam_length liness 0) :
    groundStressStep liness grid balken l =
      some { x := sc.1 + pos / get_beam_length liness 0 * (ec.1 - sc.1),
             y := sc.2 + pos / get_beam_length liness 0 * (ec.2 - sc.2),
             z := gs, beam := 0, position := pos, stress := gs } ∧
    get_beam_3d_coords liness grid balken 0 pos2 =
      Except.ok (some (sc.1 + pos2 / get_beam_length liness 0 * (ec.1 - sc.1),
                       sc.2 + pos2 / get_beam_length liness 0 * (ec.2 - sc.2), 0)) := by
  have hget : pyGet? balken (((0:ℕ):ℤ) - 1) = some (bs, be) := by
    rw [show (((0:ℕ):ℤ) - 1) = -1 from by norm_num, pyGet_neg_one]
    exact hlast
  constructor
  · simp only [groundStressStep, hne, if_true, hm, hget, hbs, hbe]
    rw [if_pos (Nat.zero_le balken.length), if_pos hpos]
  · rw [get_beam_3d_coords, if_neg (by omega : ¬(0 > balken.length))]
    simp only [hget, hbs, hbe]
    rw [if_neg (not_le.2 hpos)]

/-- Witness for C10: a data line with beam ordinal `0` (and a load anchor
on ordinal `0`) resolves via the last beam `B;1 → B;4` with the length 10
supplied by the `Balk 0:` cross-section line: position 5 lands at the
midpoint `(3, 3/2)`. -/
theorem c10_zero_ordinal_last_beam_witness :
    groundStressStep linesW10 gridW10 balkenW10 ("0 1 5 0 0 0 0 2".toList) =
      some { x := 3, y := 3/2, z := 2, beam := 0, position := 5, stress := 2 } ∧
    get_beam_3d_coords linesW10 gridW10 balkenW10 0 5 =
      Except.ok (some (3, 3/2, 0)) := by
  have hL : get_beam_length linesW10 0 = 10 := by
    rw [show get_beam_length linesW10 0 = ((10:ℕ):ℚ) from rfl]
    norm_num
  have h := c10_zero_ordinal_last_beam linesW10 gridW10 balkenW10
    ("0 1 5 0 0 0 0 2".toList) 5 5 2 ("B;1".toList) ("B;4".toList)
    ((3:ℚ) + (((1:ℤ):ℚ) - 1) * ((3:ℚ) - 3) / 3,
     (0:ℚ) + (((1:ℤ):ℚ) - 1) * ((3:ℚ) - 0) / 3)
    ((3:ℚ) + (((4:ℤ):ℚ) - 1) * ((3:ℚ) - 3) / 3,
     (0:ℚ) + (((4:ℤ):ℚ) - 1) * ((3:ℚ) - 0) / 3)
    rfl rfl rfl rfl rfl (by rw [hL]; norm_num)
  obtain ⟨h1, h2⟩ := h
  rw [hL] at h1 h2
  constructor
  · rw [h1]; norm_num
  · rw [h2]; norm_num

theorem lower_digit_ne {d : Chars} (hall : ∀ x ∈ d, isDigitCh x = true) {c : Char}
    (hc : isDigitCh c = false) : ∀ y ∈ lower d, y ≠ c := by
  intro y hy
  obtain ⟨x, hx, rfl⟩ := List.mem_map.1 hy
  rw [lowerCh_digit (hall x hx)]
  exact ne_of_digit hall hc x hx

theorem balkenMatch_digits (d : Chars) (rest : Chars) (hne : d ≠ [])
    (hall : ∀ x ∈ d, isDigitCh x = true) :
    balkenMatch (d ++ ' ' :: rest) = balkenMatch ('1' :: ' ' :: rest) := by
  obtain ⟨a, d', rfl⟩ : ∃ a d', d = a :: d' := by
    cases d with
    | nil => exact absurd rfl hne
    | cons a d' => exact ⟨a, d', rfl⟩
  have ha := hall a (List.mem_cons_self a d')
  have hsk : skipWs0 ((a :: d') ++ ' ' :: rest) = (a :: d') ++ ' ' :: rest := by
    rw [List.cons_append]
    exact skipWs0_cons_of_nonws (digit_not_ws ha)
  have htk : takeWhile1 isDigitCh ((a :: d') ++ ' ' :: rest) =
      some (a :: d', ' ' :: rest) :=
    takeWhile1_all_append ' ' rest hne hall (by decide)
  have hsk1 : skipWs0 ('1' :: ' ' :: rest) = '1' :: ' ' :: rest :=
    skipWs0_cons_of_nonws (by decide)
  have htk1 : takeWhile1 isDigitCh ('1' :: ' ' :: rest) = some (['1'], ' ' :: rest) := by
    rw [show ('1' :: ' ' :: rest) = ['1'] ++ ' ' :: rest from rfl]
    exact takeWhile1_all_append ' ' rest (by simp) (by decide) (by decide)
  rw [balkenMatch, balkenMatch, hsk, htk, hsk1, htk1]

theorem lineNonEmpty_digits (d : Chars) (rest : Chars) (hne : d ≠ [])
    (hall : ∀ x ∈ d, isDigitCh x = true) : lineNonEmpty (d ++ rest) = true := by
  obtain ⟨a, d', rfl⟩ : ∃ a d', d = a :: d' := by
    cases d with
    | nil => exact absurd rfl hne
    | cons a d' => exact ⟨a, d', rfl⟩
  have ha := hall a (List.mem_cons_self a d')
  simp [lineNonEmpty, List.cons_append, List.any_cons, digit_nonWs ha]

theorem balkenLoop_open (l : Chars) (ls : List Chars) (inB : Bool) (acc : List BeamT)
    (h1 : (hasInfix ("BALKEN".toList) l
      && !(hasInfix ("vervolg".toList) (lower l))) = true) :
    balkenLoop (l :: ls) inB acc = balkenLoop ls true acc := by
  simp only [balkenLoop, h1, if_true]

theorem balkenLoop_data (l : Chars) (ls : List Chars) (acc : List BeamT) (bm : BeamT)
    (h1 : (hasInfix ("BALKEN".toList) l
      && !(hasInfix ("vervolg".toList) (lower l))) = false)
    (h2 : (hasInfix ("BALKEN vervolg".toList) l
      || hasInfix ("DOORSNEDESECTOREN".toList) l) = false)
    (h3 : lineNonEmpty l = true) (h4 : balkenMatch l = some bm) :
    balkenLoop (l :: ls) true acc = balkenLoop ls true (acc ++ [bm]) := by
  simp only [balkenLoop, h1, h2, h3, h4, Bool.false_eq_true, if_false, Bool.true_and,
    if_true]

/-- Claim C9: a beam-table line of the shape
`<numeral> <tag> <startCode> <endCode>` contributes exactly its two
trailing endpoint-code tokens, beams are appended in line order, and the
resulting ordinals are positional: with any leading digit strings `d1, d2`
the table lines `d1 X A;1 A;4` and `d2 X A;4 B;1` always produce the beam
sequence `[(A;1, A;4), (A;4, B;1)]` (ordinals 1 and 2), independent of the
numerals' values. -/
theorem c9_beam_table (d1 d2 : Chars) (hne1 : d1 ≠ [])
    (hd1 : ∀ x ∈ d1, isDigitCh x = true) (hne2 : d2 ≠ [])
    (hd2 : ∀ x ∈ d2, isDigitCh x = true) :
    parseBalken ["BALKEN".toList,
                 d1 ++ " X A;1 A;4".toList,
                 d2 ++ " X A;4 B;1".toList] =
      [("A;1".toList, "A;4".toList), ("A;4".toList, "B;1".toList)] := by
  have hB1 : hasInfix ("BALKEN".toList) (d1 ++ " X A;1 A;4".toList) = false := by
    rw [show ("BALKEN".toList) = 'B' :: "ALKEN".toList from rfl,
      hasInfix_append_skip _ (ne_of_digit hd1 (by decide))]
    decide
  have hB2 : hasInfix ("BALKEN".toList) (d2 ++ " X A;4 B;1".toList) = false := by
    rw [show ("BALKEN".toList) = 'B' :: "ALKEN".toList from rfl,
      hasInfix_append_skip _ (ne_of_digit hd2 (by decide))]
    decide
  have hBv1 : hasInfix ("BALKEN vervolg".toList) (d1 ++ " X A;1 A;4".toList) = false := by
    rw [show ("BALKEN vervolg".toList) = 'B' :: "ALKEN vervolg".toList from rfl,
      hasInfix_append_skip _ (ne_of_digit hd1 (by decide))]
    decide
  have hBv2 : hasInfix ("BALKEN vervolg".toList) (d2 ++ " X A;4 B;1".toList) = false := by
    rw [show ("BALKEN vervolg".toList) = 'B' :: "ALKEN vervolg".toList from rfl,
      hasInfix_append_skip _ (ne_of_digit hd2 (by decide))]
    decide
  have hD1 : hasInfix ("DOORSNEDESECTOREN".toList) (d1 ++ " X A;1 A;4".toList) = false := by
    rw [show ("DOORSNEDESECTOREN".toList) = 'D' :: "OORSNEDESECTOREN".toList from rfl,
      hasInfix_append_skip _ (ne_of_digit hd1 (by decide))]
    decide
  have hD2 : hasInfix ("DOORSNEDESECTOREN".toList) (d2 ++ " X A;4 B;1".toList) = false := by
    rw [show ("DOORSNEDESECTOREN".toList) = 'D' :: "OORSNEDESECTOREN".toList from rfl,
      hasInfix_append_skip _ (ne_of_digit hd2 (by decide))]
    decide
  have hm1 : balkenMatch (d1 ++ " X A;1 A;4".toList) =
      some ("A;1".toList, "A;4".toList) := by
    rw [show (" X A;1 A;4".toList) = ' ' :: "X A;1 A;4".toList from rfl,
      balkenMatch_digits d1 _ hne1 hd1]
    rfl
  have hm2 : balkenMatch (d2 ++ " X A;4 B;1".toList) =
      some ("A;4".toList, "B;1".toList) := by
    rw [show (" X A;4 B;1".toList) = ' ' :: "X A;4 B;1".toList from rfl,
      balkenMatch_digits d2 _ hne2 hd2]
    rfl
  rw [parseBalken,
    balkenLoop_open _ _ _ _ (by decide),
    balkenLoop_data _ _ _ _ (by rw [hB1]; rfl) (by rw [hBv1, hD1]; rfl)
      (lineNonEmpty_digits d1 _ hne1 hd1) hm1,
    balkenLoop_data _ _ _ _ (by rw [hB2]; rfl) (by rw [hBv2, hD2]; rfl)
      (lineNonEmpty_digits d2 _ hne2 hd2) hm2]
  rfl

/-- Witness for C9: the spec's literal example, leading numerals `1` and
`2`. -/
theorem c9_beam_table_witness :
    parseBalken ["BALKEN".toList, "1 X A;1 A;4".toList, "2 X A;4 B;1".toList] =
      [("A;1".toList, "A;4".toList), ("A;4".toList, "B;1".toList)] :=
  c9_beam_table ("1".toList) ("2".toList) (by decide) (by decide) (by decide) (by decide)

end Balk
